import Mathlib

/-!
Shallow embedding of the `camera_utils` camera adapters
(`src/camera_utils/cameras/IntelRealsense.py` and
`src/camera_utils/cameras/Helios.py`) and proofs about the spec claims.

Conventions of the embedding:
* numpy `uint16`/`uint8` values are `Nat` taken modulo `2^16` / `2^8` at
  the points where the python code casts;
* numpy float arithmetic (scale/offset application, divisions) is
  modelled over `ℚ`; a float-to-unsigned-int numpy cast truncates toward
  zero, modelled by `Int.toNat ∘ Rat.floor` (all values of interest are
  nonnegative) followed by the modulus;
* python exceptions that the code catches or raises are modelled with
  `Except`/`Option`, a `exit(1)` with an explicit outcome constructor;
* the vendor SDKs (pyrealsense2, arena_api) are opaque: device-produced
  buffers and frames are explicit inputs, SDK calls that mutate device
  state are explicit state passing.
-/

namespace CameraUtils

/-- numpy cast of a nonnegative float value to `uint16`
(`dtype=np.uint16` / assignment into a `uint16` array): truncation toward
zero, then reduction mod 2^16. -/
def truncU16 (q : ℚ) : ℕ := (Int.toNat ⌊q⌋) % 65536

/-- numpy cast `np.uint8` applied to a `uint16` value: keeps the low 8 bits. -/
def castU8 (n : ℕ) : ℕ := n % 256

/-- Camera intrinsics as both adapters store them:
`self.intr = {'fx':…, 'fy':…, 'px':…, 'py':…, 'width':…, 'height':…}`. -/
structure Intr where
  fx : ℚ
  fy : ℚ
  px : ℚ
  py : ℚ
  width : ℕ
  height : ℕ
deriving Repr, DecidableEq

/-- An image produced by an adapter: channel/bit-depth format plus the
flattened pixel samples. -/
structure Frame where
  width : ℕ
  height : ℕ
  channels : ℕ
  bitsPerChannel : ℕ
  data : List ℕ
deriving Repr, DecidableEq

/-! ## IntelRealsense (src/camera_utils/cameras/IntelRealsense.py) -/

namespace RS

/-- `rs.format` stream formats used by `IntelRealsense.__init__`. -/
inductive Format where
  | z16
  | bgr8
deriving Repr, DecidableEq

/-- Channels of a pyrealsense2 stream format (`z16` is 1-channel 16-bit
depth, `bgr8` is 3-channel 8-bit color). -/
def Format.channels : Format → ℕ
  | .z16 => 1
  | .bgr8 => 3

/-- Bit depth per channel of a pyrealsense2 stream format. -/
def Format.bits : Format → ℕ
  | .z16 => 16
  | .bgr8 => 8

/-- `rs.stream` kinds used by the adapter. -/
inductive StreamKind where
  | depth
  | color
deriving Repr, DecidableEq

/-- One `config.enable_stream(stream, w, h, format, fps)` request. -/
structure StreamCfg where
  kind : StreamKind
  width : ℕ
  height : ℕ
  format : Format
  fps : ℕ
deriving Repr, DecidableEq

/-- `Camera.Resolution` values used by the adapters. -/
inductive Resolution where
  | vga
  | hd
  | fullHd
deriving Repr, DecidableEq

/-- The stream configuration `IntelRealsense.__init__` builds (lines
21-25): one fixed depth stream `1280x720 z16`, and a color stream
`1280x720 bgr8` when `rgb_resolution == HD`, else `1920x1080 bgr8`,
both at the requested fps. -/
def initConfig (rgbRes : Resolution) (fps : ℕ) : List StreamCfg :=
  [⟨.depth, 1280, 720, .z16, fps⟩] ++
    (if rgbRes = .hd then [⟨.color, 1280, 720, .bgr8, fps⟩]
     else [⟨.color, 1920, 1080, .bgr8, fps⟩])

/-- One frameset delivered by `pipeline.wait_for_frames()`: the depth
and color parts may individually be absent (`frames.get_depth_frame()` /
`frames.get_color_frame()` then return a falsy frame). Depth samples
are raw z16 device units (millimeters). -/
structure DeviceFrames where
  depth : Option (List ℕ)
  color : Option Frame
deriving Repr, DecidableEq

/-- Adapter state after a successful `IntelRealsense.__init__`:
stored camera name, serial, fps, intrinsics, the mm-to-m divisor, the
device option table of the option-queried sensor, whether the pipeline
is streaming, and the stream of framesets the device will deliver. -/
structure State where
  camera_name : String
  serial_number : String
  fps : ℕ
  intr : Intr
  mm2m_conversion : ℕ
  options : List (ℕ × ℚ)
  streaming : Bool
  frames : List DeviceFrames
deriving Repr, DecidableEq

/-- Outcome of `IntelRealsense.__init__`: a configured adapter, or
process termination via `exit(1)` after printing a diagnostic. -/
inductive InitOutcome where
  | ok (s : State)
  | exitProcess (code : ℕ) (diagnostic : String)
deriving Repr, DecidableEq

/-- The diagnostic printed on a failed `pipeline.start` (line 31),
without the ANSI color escapes. -/
def startFailDiagnostic : String :=
  "Error during camera initialization.\nMake sure to have set the right RGB camera resolution. Some cameras doesnt have FullHD resolution (e.g. Intel Realsense D455).\nIf you have connected more cameras make sure to insert the serial numbers to distinguish cameras during initialization."

/-- `IntelRealsense.__init__` (lines 7-43). `hwSupports` abstracts the
connected hardware: `pipeline.start(config)` raises `RuntimeError` iff
some enabled stream is unsupported. `deviceIntr` is the color stream
profile intrinsics the SDK reports, `deviceFrames` the framesets the
device will deliver once streaming. On a start failure the code prints
the diagnostic and calls `exit(1)` — no fallback configuration. -/
def init (hwSupports : StreamCfg → Bool) (deviceIntr : Intr)
    (deviceFrames : List DeviceFrames) (rgbRes : Resolution) (fps : ℕ)
    (serial : String) (depth_in_meters : Bool) : InitOutcome :=
  let config := initConfig rgbRes fps
  if config.all hwSupports then
    .ok { camera_name := "Intel Realsense"
          serial_number := serial
          fps := fps
          intr := deviceIntr
          mm2m_conversion := if depth_in_meters then 1000 else 1
          options := []
          streaming := true
          frames := deviceFrames }
  else
    .exitProcess 1 startFailDiagnostic

/-- The `while not color_frame:` loop of `get_rgb` (lines 57-60): keep
calling `wait_for_frames` until a frameset with a color frame arrives;
`none` if the device never delivers one (the loop then never exits). -/
def waitForColor : List DeviceFrames → Option (Frame × List DeviceFrames)
  | [] => none
  | f :: rest =>
    match f.color with
    | some c => some (c, rest)
    | none => waitForColor rest

/-- The `while not depth_frame:` loop of `get_depth` (lines 69-72). -/
def waitForDepth : List DeviceFrames → Option (List ℕ × List DeviceFrames)
  | [] => none
  | f :: rest =>
    match f.depth with
    | some d => some (d, rest)
    | none => waitForDepth rest

/-- The `while not color_frame_cam or not depth_frame_cam:` loop of
`get_frames`/`get_aligned_frames` (lines 80-84, 94-100): retry until one
frameset has both parts. -/
def waitForBoth : List DeviceFrames → Option ((Frame × List ℕ) × List DeviceFrames)
  | [] => none
  | f :: rest =>
    match f.color, f.depth with
    | some c, some d => some ((c, d), rest)
    | _, _ => waitForBoth rest

/-- `IntelRealsense.get_rgb` (lines 53-63): returns the device color
frame unchanged (`np.asanyarray(color_frame.get_data())`). -/
def get_rgb (s : State) : Option (Frame × State) :=
  (waitForColor s.frames).map fun p => (p.1, { s with frames := p.2 })

/-- Per-pixel depth conversion of `IntelRealsense.get_depth` (line 74):
one float division by `mm2m_conversion`, then cast to `uint16`. -/
def depthOnce (mm2m : ℕ) (raw : ℕ) : ℕ := truncU16 ((raw : ℚ) / (mm2m : ℚ))

/-- Per-pixel depth conversion of `IntelRealsense.get_frames` and
`get_aligned_frames` (lines 85 and 88, 101 and 104): the float division
by `mm2m_conversion` is applied on line 85 (`/ self.mm2m_conversion`)
and then again on line 88 inside `np.asanyarray(depth_frame /
self.mm2m_conversion, dtype=np.uint16)`, so the raw sample is divided
twice before the `uint16` cast. -/
def depthTwice (mm2m : ℕ) (raw : ℕ) : ℕ :=
  truncU16 (((raw : ℚ) / (mm2m : ℚ)) / (mm2m : ℚ))

/-- `IntelRealsense.get_depth` (lines 65-74). -/
def get_depth (s : State) : Option (List ℕ × State) :=
  (waitForDepth s.frames).map fun p =>
    (p.1.map (depthOnce s.mm2m_conversion), { s with frames := p.2 })

/-- `IntelRealsense.get_frames` (lines 76-88): color frame unchanged,
depth divided by `mm2m_conversion` on line 85 and again on line 88
before the `uint16` cast. -/
def get_frames (s : State) : Option ((Frame × List ℕ) × State) :=
  (waitForBoth s.frames).map fun p =>
    ((p.1.1, p.1.2.map (depthTwice s.mm2m_conversion)), { s with frames := p.2 })

/-- `IntelRealsense.get_aligned_frames` (lines 90-104): after the SDK
alignment (`rs.align(rs.stream.color)` reprojection, modelled by
`alignDepth` applied to the raw depth samples), the same double
division by `mm2m_conversion` (lines 101 and 104) and `uint16` cast. -/
def get_aligned_frames (alignDepth : List ℕ → List ℕ) (s : State) :
    Option ((Frame × List ℕ) × State) :=
  (waitForBoth s.frames).map fun p =>
    ((p.1.1, (alignDepth p.1.2).map (depthTwice s.mm2m_conversion)),
      { s with frames := p.2 })

/-- `IntelRealsense.set_option` (lines 106-118): forwards the option and
value to the sensor; a `TypeError` (modelled by `valueTypeOk = false`)
is caught and reported, leaving the options untouched. The state's
intrinsics and serial are never assigned. -/
def setOption (s : State) (option : ℕ) (value : ℚ) (valueTypeOk : Bool) :
    State × String :=
  if valueTypeOk then
    ({ s with options := (option, value) :: s.options },
      "Option changed to value")
  else
    (s, "Exception (TypeError): the option has NOT been set.")

/-- `IntelRealsense.get_option` (lines 120-130): reads the option value
from the sensor and prints it; the state is not modified. -/
def get_option (s : State) (option : ℕ) : State × Option ℚ :=
  (s, (s.options.lookup option))

/-- `IntelRealsense.__del__` (lines 45-50): `pipeline.stop()`, with
`RuntimeError` (stop on a pipeline that is not streaming) caught and
reported in an except block. -/
inductive DelReport where
  | closed (msg : String)
  | caughtRuntimeError (msg : String)
deriving Repr, DecidableEq

/-- `pipeline.stop()`: succeeds iff the pipeline is streaming, else
raises `RuntimeError`. -/
def pipelineStop (streaming : Bool) : Except String Bool :=
  if streaming then .ok false
  else .error "stop() cannot be called before start()"

/-- `IntelRealsense.__del__` (lines 45-50), as a total function on the
streaming state: the `try/except RuntimeError` catches the only
exception `pipeline.stop()` raises, so the destructor never propagates
an exception (never crashes the process). -/
def del (s : State) : State × DelReport :=
  match pipelineStop s.streaming with
  | .ok st =>
    ({ s with streaming := st },
      .closed (s.camera_name ++ " " ++ s.serial_number ++ " camera closed"))
  | .error e =>
    (s, .caughtRuntimeError ("Exception (RuntimeError): " ++ e))

end RS

/-! ## Helios (src/camera_utils/cameras/Helios.py) -/

namespace Helios

/-- One pixel of a `Coord3D_ABCY16` buffer viewed as `uint16` channels
(line 99/115/130: `.view(np.uint16)` with 4 channels): coordinates A, B,
C plus intensity Y, each a raw 16-bit sample. -/
structure ABCY where
  a : ℕ
  b : ℕ
  c : ℕ
  y : ℕ
deriving Repr, DecidableEq

/-- A buffer delivered by `pipeline.get_buffer()` and copied by
`BufferFactory.copy` (bits_per_pixel = 64 for `Coord3D_ABCY16`). -/
structure Buffer where
  width : ℕ
  height : ℕ
  pixels : List ABCY
deriving Repr, DecidableEq

/-- A device as `system.create_device()` returns it: its nodemap
calibration registers (lines 45-50), serial register (line 52), the
per-axis `Scan3dCoordinateScale`/`Offset` registers (lines 69-77) and
the stream of buffers it will deliver. -/
structure Device where
  deviceSerial : String
  calibFocalLengthX : ℚ
  calibFocalLengthY : ℚ
  calibOpticalCenterX : ℚ
  calibOpticalCenterY : ℚ
  width : ℕ
  height : ℕ
  scale_A : ℚ
  offset_A : ℚ
  scale_B : ℚ
  offset_B : ℚ
  scale_C : ℚ
  offset_C : ℚ
  buffers : List Buffer
deriving Repr, DecidableEq

/-- Adapter state after a successful `Helios.__init__`. -/
structure State where
  camera_name : String
  serial_number : String
  intr : Intr
  scale_A : ℚ
  offset_A : ℚ
  scale_B : ℚ
  offset_B : ℚ
  scale_C : ℚ
  offset_C : ℚ
  buffers : List Buffer
deriving Repr, DecidableEq

/-- The device-discovery loop of `Helios.__init__` (lines 17-36):
`while tries < tries_max: devices = system.create_device(); if not
devices: sleep 3 seconds (3 x 1s); tries += 1; else break`, with the
`while`-`else` raising once `tries` reaches `tries_max`. `discover t`
is what `system.create_device()` returns at attempt `t`. The result is
(attempts made, total seconds slept, the nonempty device list found or
`none` when the loop fell through to the `raise`). -/
def discoveryAux (discover : ℕ → List Device) (sleepTime : ℕ) :
    ℕ → ℕ → ℕ × ℕ × Option (Device × List Device)
  | 0, _ => (0, 0, none)
  | rem + 1, t =>
    match discover t with
    | [] =>
      let r := discoveryAux discover sleepTime rem (t + 1)
      (r.1 + 1, r.2.1 + sleepTime, r.2.2)
    | d :: ds => (1, 0, some (d, ds))

/-- The discovery loop with the hard-coded budget of `Helios.__init__`:
`tries_max = 6`, `sleep_time_secs = 3` (lines 18-19). -/
def discovery (discover : ℕ → List Device) : ℕ × ℕ × Option (Device × List Device) :=
  discoveryAux discover 3 6 0

/-- `Helios.__init__` (lines 9-81). `requestedSerial` is the
constructor's `serial_number` argument, stored on the instance by
`Camera.__init__` (line 15; `Camera.__init__` itself is the
CameraInterface base storing its arguments verbatim) and then
overwritten on line 52 with the device-reported
`DeviceSerialNumber`. The adapter binds `devices[0]` (line 38) — the
requested serial is never consulted during discovery or binding.
Returns `none` when the discovery loop raised. -/
def init (discover : ℕ → List Device) (requestedSerial : String) : Option State :=
  match (discovery discover).2.2 with
  | none => none
  | some (dev, _rest) =>
    let afterBase : String := requestedSerial
    let _ := afterBase
    some { camera_name := "LucidVision Helios"
           serial_number := dev.deviceSerial
           intr := { fx := dev.calibFocalLengthX, fy := dev.calibFocalLengthY
                     px := dev.calibOpticalCenterX, py := dev.calibOpticalCenterY
                     width := dev.width, height := dev.height }
           scale_A := dev.scale_A, offset_A := dev.offset_A
           scale_B := dev.scale_B, offset_B := dev.offset_B
           scale_C := dev.scale_C, offset_C := dev.offset_C
           buffers := dev.buffers }

/-- `buffer = self.pipeline.get_buffer(); item = BufferFactory.copy(
buffer); self.pipeline.requeue_buffer(buffer)` (lines 95-97, 111-113,
126-128): pop the next buffer from the queue, keep a private copy. -/
def getBuffer (s : State) : Option (Buffer × State) :=
  match s.buffers with
  | [] => none
  | b :: rest => some (b, { s with buffers := rest })

/-- Minimum of a list of raw samples (`cv2.normalize` scans the source
array for its minimum). -/
def listMin : List ℕ → ℕ
  | [] => 0
  | x :: xs => xs.foldl min x

/-- Maximum of a list of raw samples. -/
def listMax : List ℕ → ℕ
  | [] => 0
  | x :: xs => xs.foldl max x

/-- OpenCV `saturate_cast<ushort>` applied after rounding: clamp to
[0, 65535]. -/
def saturateU16 (z : ℤ) : ℕ := min (max z 0).toNat 65535

/-- `cv2.normalize(intensity, intensity, 0, 255, cv2.NORM_MINMAX)` on a
`uint16` array (lines 101, 135): OpenCV computes `scale =
(beta - alpha) / (smax - smin)` when `smax - smin` is nonzero and
`scale = 0` otherwise, `shift = alpha - smin * scale` (here `alpha = 0`,
`beta = 255`), then stores `saturate(round(v * scale + shift))` for each
sample. -/
def normalizeMinMax (xs : List ℕ) : List ℕ :=
  let m := listMin xs
  let M := listMax xs
  let scale : ℚ := if m < M then 255 / ((M : ℚ) - (m : ℚ)) else 0
  let shift : ℚ := 0 - (m : ℚ) * scale
  xs.map fun v : ℕ => saturateU16 (round ((v : ℚ) * scale + shift))

/-- The intensity image of `get_rgb`/`get_frames` (lines 99-102,
134-136): channel 3 of the buffer, min-max normalized to [0, 255] in
place, then cast with `np.uint8`. -/
def intensityImage (item : Buffer) : Frame :=
  { width := item.width, height := item.height
    channels := 1, bitsPerChannel := 8
    data := (normalizeMinMax (item.pixels.map ABCY.y)).map castU8 }

/-- Per-pixel depth decoding (lines 116-117, 131-133):
`npndarray[:,:,2] * self.scale_C + self.offset_C`, the float result
assigned back into the `uint16` array (cast), channel 2 extracted. -/
def depthPixel (scaleC offsetC : ℚ) (c : ℕ) : ℕ :=
  truncU16 ((c : ℚ) * scaleC + offsetC)

/-- `Helios.get_rgb` (lines 91-104). -/
def get_rgb (s : State) : Option (Frame × State) :=
  (getBuffer s).map fun p => (intensityImage p.1, p.2)

/-- `Helios.get_depth` (lines 107-119). -/
def get_depth (s : State) : Option (List ℕ × State) :=
  (getBuffer s).map fun p =>
    (p.1.pixels.map (fun px => depthPixel s.scale_C s.offset_C px.c), p.2)

/-- `Helios.get_frames` (lines 122-138): decode both channel 3
(normalized intensity) and channel 2 (scaled depth) of one buffer. -/
def get_frames (s : State) : Option ((Frame × List ℕ) × State) :=
  (getBuffer s).map fun p =>
    ((intensityImage p.1, p.1.pixels.map (fun px => depthPixel s.scale_C s.offset_C px.c)), p.2)

/-- `Helios.get_aligned_frames` (lines 141-145): `return
self.get_frames()`. -/
def get_aligned_frames (s : State) : Option ((Frame × List ℕ) × State) :=
  get_frames s

/-- Report of one `Helios.__del__` run. -/
inductive DelReport where
  | closed (msg : String)
  | caughtRuntimeError (msg : String)
deriving Repr, DecidableEq

/-- `system.destroy_device()` on the process-wide arena device
registry. Modelled from the spec for the external arena_api SDK:
destroying an already-released registry raises a `RuntimeError`
("a second adapter's teardown on an already-released registry is a
reported, non-fatal condition"); the registry flag records whether it
still holds created devices. -/
def destroyDevice (registryHasDevices : Bool) : Except String Bool :=
  if registryHasDevices then .ok false
  else .error "no created devices to destroy"

/-- `Helios.__del__` (lines 83-88): `system.destroy_device()` inside a
`try/except RuntimeError`; the only exception the call raises is caught,
so the destructor is total (never crashes the process). Returns the new
registry state and what was printed. -/
def del (registryHasDevices : Bool) (camera_name serial : String) :
    Bool × DelReport :=
  match destroyDevice registryHasDevices with
  | .ok r => (r, .closed (camera_name ++ " " ++ serial ++ " camera closed"))
  | .error e =>
    (registryHasDevices, .caughtRuntimeError ("Exception (RuntimeError): " ++ e))

end Helios

/-! ## Concrete sample states and helper lemmas -/

namespace RS

/-- The format of the color stream enabled by a configuration (the
argument of `config.enable_stream(rs.stream.color, ...)`). -/
def colorFormatOf (cfgs : List StreamCfg) : Option Format :=
  (cfgs.find? (fun c => c.kind == StreamKind.color)).map (fun c => c.format)

end RS

/-- A concrete IntelRealsense adapter state (meters mode), used to
evaluate the definitions on concrete inputs. -/
def rsSample : RS.State :=
  { camera_name := "Intel Realsense", serial_number := "923322071556", fps := 30,
    intr := ⟨600, 600, 640, 360, 1280, 720⟩, mm2m_conversion := 1000,
    options := [], streaming := true,
    frames := [{ depth := some [5000], color := some ⟨1280, 720, 3, 8, [1, 2, 3]⟩ }] }

/-- A concrete Helios adapter state with one buffer of two pixels
(depth channel samples 1000 and 2000, intensity samples 3 and 7),
`scale_C = 1/4`, `offset_C = 300`. -/
def heliosSample : Helios.State :=
  { camera_name := "LucidVision Helios", serial_number := "203500044",
    intr := ⟨474, 474, 320, 240, 640, 480⟩,
    scale_A := 1, offset_A := 0, scale_B := 1, offset_B := 0,
    scale_C := 1/4, offset_C := 300,
    buffers := [⟨2, 1, [⟨0, 0, 1000, 3⟩, ⟨0, 0, 2000, 7⟩]⟩] }

/-- A concrete Helios adapter state whose single buffer has a constant
intensity channel (every raw Y sample is 7). -/
def heliosConstSample : Helios.State :=
  { camera_name := "LucidVision Helios", serial_number := "203500044",
    intr := ⟨474, 474, 320, 240, 640, 480⟩,
    scale_A := 1, offset_A := 0, scale_B := 1, offset_B := 0,
    scale_C := 1/4, offset_C := 300,
    buffers := [⟨1, 1, [⟨0, 0, 1000, 7⟩]⟩] }

/-- A concrete Helios device whose reported serial is "AAA". -/
def heliosDevA : Helios.Device :=
  { deviceSerial := "AAA", calibFocalLengthX := 474, calibFocalLengthY := 474,
    calibOpticalCenterX := 320, calibOpticalCenterY := 240,
    width := 640, height := 480,
    scale_A := 1, offset_A := 0, scale_B := 1, offset_B := 0,
    scale_C := 1/4, offset_C := 300, buffers := [] }

/-- A second concrete Helios device, reported serial "BBB". -/
def heliosDevB : Helios.Device :=
  { deviceSerial := "BBB", calibFocalLengthX := 500, calibFocalLengthY := 500,
    calibOpticalCenterX := 320, calibOpticalCenterY := 240,
    width := 640, height := 480,
    scale_A := 1, offset_A := 0, scale_B := 1, offset_B := 0,
    scale_C := 1/2, offset_C := 0, buffers := [] }

/-- A `uint8` cast result is below 256. -/
lemma castU8_lt (n : ℕ) : castU8 n < 256 := Nat.mod_lt _ (by norm_num)

/-- Every frame `waitForColor` returns came from the input frameset
stream (the loop only discards framesets with no color part). -/
lemma waitForColor_mem :
    ∀ (fs : List RS.DeviceFrames) (c : Frame) (rest : List RS.DeviceFrames),
      RS.waitForColor fs = some (c, rest) → ∃ df ∈ fs, df.color = some c := by
  intro fs
  induction fs with
  | nil => intro c rest h; simp [RS.waitForColor] at h
  | cons f t ih =>
    intro c rest h
    cases hc : f.color with
    | none =>
      simp [RS.waitForColor, hc] at h
      obtain ⟨df, hdf, hcol⟩ := ih c rest h
      exact ⟨df, by simp [hdf], hcol⟩
    | some cf =>
      simp [RS.waitForColor, hc] at h
      exact ⟨f, by simp, by rw [hc, h.1]⟩

/-! ## Theorems about the claims -/

/-- C1: the claim says that with `depth_in_meters = true`
(`mm2m_conversion = 1000`) every depth pixel of `get_frames` and
`get_aligned_frames` is the raw sample divided by 1000 exactly once and
cast to `uint16`. The code divides twice (lines 85 and 88, 101 and
104): on the raw sample 5000 mm both methods return 0, while a single
division (as `get_depth` line 74 performs, and as the claim states)
gives 5. -/
theorem C1_get_frames_divides_twice :
    (RS.get_frames
      { camera_name := "Intel Realsense", serial_number := "sn", fps := 30,
        intr := ⟨600, 600, 640, 360, 1280, 720⟩,
        mm2m_conversion := 1000, options := [], streaming := true,
        frames := [{ depth := some [5000], color := some ⟨1280, 720, 3, 8, []⟩ }] }).map
      (fun r => r.1.2) = some [0] ∧
    (RS.get_aligned_frames (fun d => d)
      { camera_name := "Intel Realsense", serial_number := "sn", fps := 30,
        intr := ⟨600, 600, 640, 360, 1280, 720⟩,
        mm2m_conversion := 1000, options := [], streaming := true,
        frames := [{ depth := some [5000], color := some ⟨1280, 720, 3, 8, []⟩ }] }).map
      (fun r => r.1.2) = some [0] ∧
    RS.depthOnce 1000 5000 = 5 := by
  refine ⟨?_, ?_, ?_⟩ <;>
    simp [RS.get_frames, RS.get_aligned_frames, RS.waitForBoth,
      RS.depthTwice, RS.depthOnce, truncU16] <;>
    norm_num <;> decide

/-- C4: with no device ever present, the Helios discovery loop makes
exactly 6 attempts, sleeps 3 seconds after each failed attempt (18
seconds in total, which is at least 5 x 3 and at most 6 x 3), and only
then `Helios.__init__` raises the no-device exception. -/
theorem C4_discovery_retry_budget (discover : ℕ → List Helios.Device)
    (h : ∀ t, discover t = []) :
    Helios.discovery discover = (6, 18, none) ∧
    (∀ serial, Helios.init discover serial = none) ∧
    5 * 3 ≤ 18 ∧ 18 ≤ 6 * 3 := by
  have hd : Helios.discovery discover = (6, 18, none) := by
    simp [Helios.discovery, Helios.discoveryAux, h]
  exact ⟨hd, fun serial => by simp [Helios.init, hd], by norm_num, by norm_num⟩

/-- C4 witness: the all-fail discovery schedule satisfies the
hypothesis, and the budget facts evaluate as stated. -/
theorem C4_discovery_retry_budget_witness :
    Helios.discovery (fun _ => []) = (6, 18, none) ∧
    Helios.init (fun _ => []) "203500044" = none :=
  ⟨(C4_discovery_retry_budget (fun _ => []) (fun _ => rfl)).1,
   (C4_discovery_retry_budget (fun _ => []) (fun _ => rfl)).2.1 "203500044"⟩

/-- C5: for every Helios adapter state, `get_aligned_frames` returns
exactly what `get_frames` returns (lines 141-145: `return
self.get_frames()`). -/
theorem C5_aligned_frames_eq_frames (s : Helios.State) :
    Helios.get_aligned_frames s = Helios.get_frames s := rfl

/-- C5 witness: the identity evaluated on the concrete sample state. -/
theorem C5_aligned_frames_eq_frames_witness :
    Helios.get_aligned_frames heliosSample = Helios.get_frames heliosSample :=
  C5_aligned_frames_eq_frames heliosSample

/-- C7: whenever the hardware rejects some requested stream
(`pipeline.start` raises `RuntimeError`), `IntelRealsense.__init__`
prints the diagnostic and terminates the process with `exit(1)` — it
never returns an adapter or retries another configuration (lines
28-32). -/
theorem C7_unsupported_config_exits (hwSupports : RS.StreamCfg → Bool)
    (deviceIntr : Intr) (deviceFrames : List RS.DeviceFrames)
    (rgbRes : RS.Resolution) (fps : ℕ) (serial : String) (dm : Bool)
    (h : (RS.initConfig rgbRes fps).all hwSupports = false) :
    RS.init hwSupports deviceIntr deviceFrames rgbRes fps serial dm =
      .exitProcess 1 RS.startFailDiagnostic := by
  simp [RS.init, h]

/-- C7 witness: a device supporting no stream at all makes `__init__`
exit with code 1 and the diagnostic. -/
theorem C7_unsupported_config_exits_witness :
    RS.init (fun _ => false) ⟨600, 600, 640, 360, 1280, 720⟩ [] .hd 30 "" false =
      .exitProcess 1 RS.startFailDiagnostic :=
  C7_unsupported_config_exits (fun _ => false) ⟨600, 600, 640, 360, 1280, 720⟩
    [] .hd 30 "" false (by decide)

/-- C10: whenever discovery finds a nonempty device list,
`Helios.__init__` binds `devices[0]` (line 38) and stores the
device-reported `DeviceSerialNumber` (line 52), for every value of the
requested `serial_number` argument — the result does not depend on the
requested serial at all. -/
theorem C10_binds_first_device (discover : ℕ → List Helios.Device)
    (requested : String) (d : Helios.Device) (ds : List Helios.Device)
    (h : (Helios.discovery discover).2.2 = some (d, ds)) :
    Helios.init discover requested =
      some { camera_name := "LucidVision Helios"
             serial_number := d.deviceSerial
             intr := { fx := d.calibFocalLengthX, fy := d.calibFocalLengthY,
                       px := d.calibOpticalCenterX, py := d.calibOpticalCenterY,
                       width := d.width, height := d.height }
             scale_A := d.scale_A, offset_A := d.offset_A,
             scale_B := d.scale_B, offset_B := d.offset_B,
             scale_C := d.scale_C, offset_C := d.offset_C,
             buffers := d.buffers } ∧
    (∀ other : String, Helios.init discover other = Helios.init discover requested) := by
  refine ⟨by simp [Helios.init, h], fun other => by simp [Helios.init, h]⟩

/-- C10 witness: with two connected devices reporting serials "AAA"
and "BBB" and the caller requesting "BBB", the adapter still binds the
first device and stores "AAA" — different from the requested serial. -/
theorem C10_binds_first_device_witness :
    (Helios.init (fun _ => [heliosDevA, heliosDevB]) "BBB").map
      Helios.State.serial_number = some "AAA" ∧
    ¬ ("AAA" = "BBB") := by
  have h := C10_binds_first_device (fun _ => [heliosDevA, heliosDevB]) "BBB"
    heliosDevA [heliosDevB] rfl
  rw [h.1]
  exact ⟨rfl, by decide⟩

/-- C2 counterexample: the claim says `get_rgb` returns a
single-channel frame on every backend, but `IntelRealsense.__init__`
enables the color stream in `rs.format.bgr8` (3 channels of 8 bits) for
every resolution choice, and `get_rgb` returns the device color frame
unchanged: on a state carrying a bgr8 frame it returns a 3-channel
image, not a 1-channel one. -/
theorem C2_realsense_rgb_is_three_channel :
    RS.colorFormatOf (RS.initConfig .hd 30) = some .bgr8 ∧
    RS.colorFormatOf (RS.initConfig .fullHd 30) = some .bgr8 ∧
    RS.Format.channels .bgr8 = 3 ∧
    (RS.get_rgb rsSample).map (fun p => (p.1.channels, p.1.bitsPerChannel)) =
      some (3, 8) ∧
    ¬ (3 = 1) := by
  refine ⟨rfl, rfl, rfl, ?_, by norm_num⟩
  simp [rsSample, RS.get_rgb, RS.waitForColor]

/-- C2 amended: `Helios.get_rgb` always returns a single-channel 8-bit
frame (every sample below 256); `IntelRealsense.__init__` always
configures the color stream as bgr8, and `IntelRealsense.get_rgb`
passes device color frames through unchanged, so when the device
delivers frames in the configured bgr8 layout the returned frame has 3
channels of 8 bits — a genuine color image, not a single-channel one. -/
theorem C2_rgb_channel_formats :
    (∀ (s : Helios.State) (f : Frame) (s' : Helios.State),
      Helios.get_rgb s = some (f, s') →
      f.channels = 1 ∧ f.bitsPerChannel = 8 ∧ ∀ v ∈ f.data, v < 256) ∧
    (∀ (res : RS.Resolution) (fps : ℕ),
      RS.colorFormatOf (RS.initConfig res fps) = some .bgr8) ∧
    (∀ s : RS.State,
      (∀ df ∈ s.frames, ∀ c : Frame, df.color = some c →
        c.channels = RS.Format.channels .bgr8 ∧
        c.bitsPerChannel = RS.Format.bits .bgr8) →
      ∀ (f : Frame) (s' : RS.State), RS.get_rgb s = some (f, s') →
        f.channels = 3 ∧ f.bitsPerChannel = 8) := by
  refine ⟨?_, ?_, ?_⟩
  · intro s f s' h
    cases hb : Helios.getBuffer s with
    | none => simp [Helios.get_rgb, hb] at h
    | some p =>
      simp [Helios.get_rgb, hb] at h
      refine ⟨by rw [← h.1]; rfl, by rw [← h.1]; rfl, ?_⟩
      intro v hv
      rw [← h.1] at hv
      simp [Helios.intensityImage] at hv
      obtain ⟨w, _, hw⟩ := hv
      rw [← hw]
      exact castU8_lt w
  · intro res fps
    cases res <;> rfl
  · intro s hwf f s' h
    cases hc : RS.waitForColor s.frames with
    | none => simp [RS.get_rgb, hc] at h
    | some p =>
      simp [RS.get_rgb, hc] at h
      obtain ⟨df, hdf, hcol⟩ := waitForColor_mem s.frames p.1 p.2 (by rw [hc])
      have := hwf df hdf p.1 hcol
      rw [← h.1]
      exact ⟨this.1, this.2⟩

/-- C2 witness: the amended statement evaluated on the concrete sample
states: the Helios output frame is 1-channel 8-bit, the RealSense
output frame is 3-channel 8-bit. -/
theorem C2_rgb_channel_formats_witness :
    ((Helios.intensityImage ⟨2, 1, [⟨0, 0, 1000, 3⟩, ⟨0, 0, 2000, 7⟩]⟩).channels = 1 ∧
      (Helios.intensityImage ⟨2, 1, [⟨0, 0, 1000, 3⟩, ⟨0, 0, 2000, 7⟩]⟩).bitsPerChannel = 8) ∧
    RS.colorFormatOf (RS.initConfig .vga 60) = some .bgr8 ∧
    ((⟨1280, 720, 3, 8, [1, 2, 3]⟩ : Frame).channels = 3 ∧
      (⟨1280, 720, 3, 8, [1, 2, 3]⟩ : Frame).bitsPerChannel = 8) := by
  have h := C2_rgb_channel_formats
  refine ⟨?_, h.2.1 .vga 60, ?_⟩
  · have := h.1 heliosSample
      (Helios.intensityImage ⟨2, 1, [⟨0, 0, 1000, 3⟩, ⟨0, 0, 2000, 7⟩]⟩)
      { heliosSample with buffers := [] } rfl
    exact ⟨this.1, this.2.1⟩
  · have := h.2.2 rsSample
      (by intro df hdf c hc
          simp [rsSample] at hdf
          rw [hdf] at hc
          simp at hc
          rw [← hc]
          exact ⟨rfl, rfl⟩)
      ⟨1280, 720, 3, 8, [1, 2, 3]⟩ { rsSample with frames := [] } rfl
    exact this

/-- C3: for every pixel of any buffer, `Helios.get_depth` returns
`raw_c * scale_C + offset_C` cast to `uint16`, and
`IntelRealsense.get_depth` returns `raw / mm2m_conversion` cast to
`uint16`, where `__init__` sets `mm2m_conversion` to 1000 when
`depth_in_meters` and 1 otherwise. -/
theorem C3_depth_pixel_formula :
    (∀ (s : Helios.State) (buf : Helios.Buffer) (rest : List Helios.Buffer),
      s.buffers = buf :: rest →
      Helios.get_depth s =
        some (buf.pixels.map (fun px => truncU16 ((px.c : ℚ) * s.scale_C + s.offset_C)),
          { s with buffers := rest })) ∧
    (∀ (s : RS.State) (raw : List ℕ) (rest : List RS.DeviceFrames),
      RS.waitForDepth s.frames = some (raw, rest) →
      RS.get_depth s =
        some (raw.map (fun v : ℕ => truncU16 ((v : ℚ) / (s.mm2m_conversion : ℚ))),
          { s with frames := rest })) ∧
    (∀ (hw : RS.StreamCfg → Bool) (intr : Intr) (frames : List RS.DeviceFrames)
        (res : RS.Resolution) (fps : ℕ) (serial : String) (dm : Bool) (s : RS.State),
      RS.init hw intr frames res fps serial dm = .ok s →
      s.mm2m_conversion = if dm then 1000 else 1) := by
  refine ⟨?_, ?_, ?_⟩
  · intro s buf rest hb
    simp [Helios.get_depth, Helios.getBuffer, hb, Helios.depthPixel]
  · intro s raw rest h
    unfold RS.get_depth
    rw [h]
    rfl
  · intro hw intr frames res fps serial dm s h
    by_cases hc : (RS.initConfig res fps).all hw
    · simp [RS.init, hc] at h
      rw [← h]
    · simp [RS.init, hc] at h

/-- C3 witness: on the concrete sample states, the Helios depth pixels
1000 and 2000 with `scale_C = 1/4`, `offset_C = 300` decode to 550 and
800, and the RealSense raw sample 5000 with divisor 1000 decodes
to 5. -/
theorem C3_depth_pixel_formula_witness :
    Helios.get_depth heliosSample = some ([550, 800], { heliosSample with buffers := [] }) ∧
    RS.get_depth rsSample = some ([5], { rsSample with frames := [] }) := by
  constructor
  · have h := C3_depth_pixel_formula.1 heliosSample
      ⟨2, 1, [⟨0, 0, 1000, 3⟩, ⟨0, 0, 2000, 7⟩]⟩ [] rfl
    rw [h]
    norm_num [heliosSample, truncU16]
    all_goals decide
  · have h := C3_depth_pixel_formula.2.1 rsSample [5000] []
      (by simp [rsSample, RS.waitForDepth])
    rw [h]
    norm_num [rsSample, truncU16]
    all_goals decide

/-- The value OpenCV NORM_MINMAX stores for the minimum sample: the
whole affine expression collapses to 0. -/
lemma normalizeEntry_min (m M : ℕ) :
    Helios.saturateU16 (round ((m : ℚ) * (255 / ((M : ℚ) - (m : ℚ))) +
      (0 - (m : ℚ) * (255 / ((M : ℚ) - (m : ℚ)))))) = 0 := by
  have hz : ((m : ℚ) * (255 / ((M : ℚ) - (m : ℚ))) +
      (0 - (m : ℚ) * (255 / ((M : ℚ) - (m : ℚ))))) = 0 := by ring
  rw [hz]
  simp [Helios.saturateU16]

/-- The value OpenCV NORM_MINMAX stores for the maximum sample when it
differs from the minimum: the affine expression collapses to 255. -/
lemma normalizeEntry_max (m M : ℕ) (hlt : m < M) :
    Helios.saturateU16 (round ((M : ℚ) * (255 / ((M : ℚ) - (m : ℚ))) +
      (0 - (m : ℚ) * (255 / ((M : ℚ) - (m : ℚ)))))) = 255 := by
  have hne : (M : ℚ) - (m : ℚ) ≠ 0 :=
    sub_ne_zero.mpr (by exact_mod_cast hlt.ne')
  have hval : ((M : ℚ) * (255 / ((M : ℚ) - (m : ℚ))) +
      (0 - (m : ℚ) * (255 / ((M : ℚ) - (m : ℚ))))) = 255 := by
    field_simp
    ring
  rw [hval]
  have hr : round (255 : ℚ) = 255 := by norm_num [round_eq]
  rw [hr]
  decide

/-- Pointwise description of `normalizeMinMax` on a list whose minimum
and maximum differ: the position of a minimal sample gets 0, the
position of a maximal sample gets 255. -/
lemma normalizeMinMax_minmax (xs : List ℕ) (i : ℕ)
    (hlt : Helios.listMin xs < Helios.listMax xs) :
    (xs.get? i = some (Helios.listMin xs) →
      (Helios.normalizeMinMax xs).get? i = some 0) ∧
    (xs.get? i = some (Helios.listMax xs) →
      (Helios.normalizeMinMax xs).get? i = some 255) := by
  unfold Helios.normalizeMinMax
  simp only [hlt, if_pos]
  constructor
  · intro h
    rw [List.get?_map, h, Option.map_some']
    exact congrArg some (normalizeEntry_min (Helios.listMin xs) (Helios.listMax xs))
  · intro h
    rw [List.get?_map, h, Option.map_some']
    exact congrArg some (normalizeEntry_max (Helios.listMin xs) (Helios.listMax xs) hlt)

/-- C6 counterexample: the claim says the maximum raw sample of every
frame maps to 255, but on a frame whose intensity channel is constant
(here the single raw sample 7, which is the frame maximum) OpenCV
NORM_MINMAX uses scale 0 and shift 0 and every output pixel is 0, not
255. -/
theorem C6_constant_frame_counterexample :
    Helios.get_rgb heliosConstSample =
      some (⟨1, 1, 1, 8, [0]⟩, { heliosConstSample with buffers := [] }) ∧
    ((⟨1, 1, [⟨0, 0, 1000, 7⟩]⟩ : Helios.Buffer).pixels.map Helios.ABCY.y) = [7] ∧
    Helios.listMax [7] = 7 ∧
    ¬ (([0] : List ℕ).get? 0 = some 255) := by
  refine ⟨?_, rfl, rfl, by decide⟩
  simp [Helios.get_rgb, Helios.getBuffer, heliosConstSample, Helios.intensityImage,
    Helios.normalizeMinMax, Helios.listMin, Helios.listMax, Helios.saturateU16, castU8]

/-- C6 amended: for every Helios frame whose raw channel-3 samples are
not all equal (per-frame minimum strictly below per-frame maximum),
`get_rgb`/`get_frames` map every minimal raw sample to 0 and every
maximal raw sample to 255 (per-frame min-max normalization), with
8-bit single-channel output; on a frame with all samples equal, every
output pixel is 0. -/
theorem C6_minmax_normalization (s : Helios.State) (buf : Helios.Buffer)
    (rest : List Helios.Buffer) (hb : s.buffers = buf :: rest)
    (hlt : Helios.listMin (buf.pixels.map Helios.ABCY.y) <
      Helios.listMax (buf.pixels.map Helios.ABCY.y)) :
    Helios.get_rgb s = some (Helios.intensityImage buf, { s with buffers := rest }) ∧
    (Helios.get_frames s).map (fun p => p.1.1) = some (Helios.intensityImage buf) ∧
    (Helios.intensityImage buf).channels = 1 ∧
    (Helios.intensityImage buf).bitsPerChannel = 8 ∧
    (∀ i : ℕ, (buf.pixels.map Helios.ABCY.y).get? i =
        some (Helios.listMin (buf.pixels.map Helios.ABCY.y)) →
      (Helios.intensityImage buf).data.get? i = some 0) ∧
    (∀ i : ℕ, (buf.pixels.map Helios.ABCY.y).get? i =
        some (Helios.listMax (buf.pixels.map Helios.ABCY.y)) →
      (Helios.intensityImage buf).data.get? i = some 255) := by
  refine ⟨by simp [Helios.get_rgb, Helios.getBuffer, hb],
    by simp [Helios.get_frames, Helios.getBuffer, hb], rfl, rfl, ?_, ?_⟩
  · intro i h
    have hn := (normalizeMinMax_minmax (buf.pixels.map Helios.ABCY.y) i hlt).1 h
    show ((Helios.normalizeMinMax (buf.pixels.map Helios.ABCY.y)).map castU8).get? i = some 0
    rw [List.get?_map, hn]
    rfl
  · intro i h
    have hn := (normalizeMinMax_minmax (buf.pixels.map Helios.ABCY.y) i hlt).2 h
    show ((Helios.normalizeMinMax (buf.pixels.map Helios.ABCY.y)).map castU8).get? i = some 255
    rw [List.get?_map, hn]
    rfl

/-- C6 witness: on the concrete two-pixel buffer with raw intensities 3
(the minimum, at index 0) and 7 (the maximum, at index 1), the
normalized output has 0 at index 0 and 255 at index 1. -/
theorem C6_minmax_normalization_witness :
    Helios.get_rgb heliosSample =
      some (Helios.intensityImage ⟨2, 1, [⟨0, 0, 1000, 3⟩, ⟨0, 0, 2000, 7⟩]⟩,
        { heliosSample with buffers := [] }) ∧
    (Helios.intensityImage ⟨2, 1, [⟨0, 0, 1000, 3⟩, ⟨0, 0, 2000, 7⟩]⟩).data.get? 0 =
      some 0 ∧
    (Helios.intensityImage ⟨2, 1, [⟨0, 0, 1000, 3⟩, ⟨0, 0, 2000, 7⟩]⟩).data.get? 1 =
      some 255 := by
  have h := C6_minmax_normalization heliosSample
    ⟨2, 1, [⟨0, 0, 1000, 3⟩, ⟨0, 0, 2000, 7⟩]⟩ [] rfl (by decide)
  exact ⟨h.1, h.2.2.2.2.1 0 (by decide), h.2.2.2.2.2 1 (by decide)⟩

/-- C8: teardown is idempotent for both adapters. For RealSense, a
first `__del__` on a streaming pipeline stops it and prints the close
message; a second `__del__` finds the pipeline stopped,
`pipeline.stop()` raises `RuntimeError`, the except block catches and
reports it, and the state is left unchanged — `del` is a total
function, so no exception escapes (the process does not crash). For
Helios, the same holds on the process-wide device registry:
`system.destroy_device()` on the already-released registry raises a
`RuntimeError` which is caught and reported, with no other effect. -/
theorem C8_teardown_idempotent :
    (∀ s : RS.State, s.streaming = true →
      (RS.del s).2 =
        .closed (s.camera_name ++ " " ++ s.serial_number ++ " camera closed") ∧
      (RS.del (RS.del s).1).2 =
        .caughtRuntimeError
          "Exception (RuntimeError): stop() cannot be called before start()" ∧
      (RS.del (RS.del s).1).1 = (RS.del s).1) ∧
    (∀ cn sn : String,
      (Helios.del true cn sn).2 = .closed (cn ++ " " ++ sn ++ " camera closed") ∧
      (Helios.del (Helios.del true cn sn).1 cn sn).2 =
        .caughtRuntimeError
          "Exception (RuntimeError): no created devices to destroy" ∧
      (Helios.del (Helios.del true cn sn).1 cn sn).1 = (Helios.del true cn sn).1) := by
  constructor
  · intro s hs
    refine ⟨?_, ?_, ?_⟩ <;>
      simp [RS.del, RS.pipelineStop, hs]
  · intro cn sn
    refine ⟨rfl, rfl, rfl⟩

/-- C8 witness: the double-teardown behavior evaluated on the concrete
streaming sample state and on concrete Helios names. -/
theorem C8_teardown_idempotent_witness :
    (RS.del rsSample).2 =
      .closed (rsSample.camera_name ++ " " ++ rsSample.serial_number ++ " camera closed") ∧
    (RS.del (RS.del rsSample).1).2 =
      .caughtRuntimeError
        "Exception (RuntimeError): stop() cannot be called before start()" ∧
    (RS.del (RS.del rsSample).1).1 = (RS.del rsSample).1 ∧
    (Helios.del (Helios.del true "LucidVision Helios" "203500044").1
        "LucidVision Helios" "203500044").2 =
      .caughtRuntimeError "Exception (RuntimeError): no created devices to destroy" := by
  have h := C8_teardown_idempotent
  have h1 := h.1 rsSample rfl
  have h2 := h.2 "LucidVision Helios" "203500044"
  exact ⟨h1.1, h1.2.1, h1.2.2, h2.2.1⟩

/-- C9: none of the per-frame or option operations of either adapter
ever changes the stored intrinsics or serial number: on the
IntelRealsense side the operations only consume device framesets or
touch the sensor option table, on the Helios side they only consume
device buffers. -/
theorem C9_intr_serial_immutable :
    (∀ (s : RS.State) (r : Frame) (s' : RS.State), RS.get_rgb s = some (r, s') →
      s'.intr = s.intr ∧ s'.serial_number = s.serial_number) ∧
    (∀ (s : RS.State) (r : List ℕ) (s' : RS.State), RS.get_depth s = some (r, s') →
      s'.intr = s.intr ∧ s'.serial_number = s.serial_number) ∧
    (∀ (s : RS.State) (r : Frame × List ℕ) (s' : RS.State),
      RS.get_frames s = some (r, s') →
      s'.intr = s.intr ∧ s'.serial_number = s.serial_number) ∧
    (∀ (align : List ℕ → List ℕ) (s : RS.State) (r : Frame × List ℕ) (s' : RS.State),
      RS.get_aligned_frames align s = some (r, s') →
      s'.intr = s.intr ∧ s'.serial_number = s.serial_number) ∧
    (∀ (s : RS.State) (o : ℕ) (v : ℚ) (ok : Bool),
      (RS.setOption s o v ok).1.intr = s.intr ∧
      (RS.setOption s o v ok).1.serial_number = s.serial_number) ∧
    (∀ (s : RS.State) (o : ℕ),
      (RS.get_option s o).1.intr = s.intr ∧
      (RS.get_option s o).1.serial_number = s.serial_number) ∧
    (∀ (s : Helios.State) (r : Frame) (s' : Helios.State),
      Helios.get_rgb s = some (r, s') →
      s'.intr = s.intr ∧ s'.serial_number = s.serial_number) ∧
    (∀ (s : Helios.State) (r : List ℕ) (s' : Helios.State),
      Helios.get_depth s = some (r, s') →
      s'.intr = s.intr ∧ s'.serial_number = s.serial_number) ∧
    (∀ (s : Helios.State) (r : Frame × List ℕ) (s' : Helios.State),
      Helios.get_frames s = some (r, s') →
      s'.intr = s.intr ∧ s'.serial_number = s.serial_number) ∧
    (∀ (s : Helios.State) (r : Frame × List ℕ) (s' : Helios.State),
      Helios.get_aligned_frames s = some (r, s') →
      s'.intr = s.intr ∧ s'.serial_number = s.serial_number) := by
  refine ⟨?_, ?_, ?_, ?_, ?_, ?_, ?_, ?_, ?_, ?_⟩
  · intro s r s' h
    cases hc : RS.waitForColor s.frames with
    | none => simp [RS.get_rgb, hc] at h
    | some p =>
      simp [RS.get_rgb, hc] at h
      exact ⟨by rw [← h.2], by rw [← h.2]⟩
  · intro s r s' h
    cases hc : RS.waitForDepth s.frames with
    | none => simp [RS.get_depth, hc] at h
    | some p =>
      simp [RS.get_depth, hc] at h
      exact ⟨by rw [← h.2], by rw [← h.2]⟩
  · intro s r s' h
    cases hc : RS.waitForBoth s.frames with
    | none => simp [RS.get_frames, hc] at h
    | some p =>
      simp [RS.get_frames, hc] at h
      exact ⟨by rw [← h.2], by rw [← h.2]⟩
  · intro align s r s' h
    cases hc : RS.waitForBoth s.frames with
    | none => simp [RS.get_aligned_frames, hc] at h
    | some p =>
      simp [RS.get_aligned_frames, hc] at h
      exact ⟨by rw [← h.2], by rw [← h.2]⟩
  · intro s o v ok
    cases ok <;> exact ⟨rfl, rfl⟩
  · intro s o
    exact ⟨rfl, rfl⟩
  · intro s r s' h
    cases hc : Helios.getBuffer s with
    | none => simp [Helios.get_rgb, hc] at h
    | some p =>
      simp [Helios.get_rgb, hc] at h
      cases hbuf : s.buffers with
      | nil => simp [Helios.getBuffer, hbuf] at hc
      | cons b t =>
        simp [Helios.getBuffer, hbuf] at hc
        rw [← h.2, ← hc]
        exact ⟨rfl, rfl⟩
  · intro s r s' h
    cases hc : Helios.getBuffer s with
    | none => simp [Helios.get_depth, hc] at h
    | some p =>
      simp [Helios.get_depth, hc] at h
      cases hbuf : s.buffers with
      | nil => simp [Helios.getBuffer, hbuf] at hc
      | cons b t =>
        simp [Helios.getBuffer, hbuf] at hc
        rw [← h.2, ← hc]
        exact ⟨rfl, rfl⟩
  · intro s r s' h
    cases hc : Helios.getBuffer s with
    | none => simp [Helios.get_frames, hc] at h
    | some p =>
      simp [Helios.get_frames, hc] at h
      cases hbuf : s.buffers with
      | nil => simp [Helios.getBuffer, hbuf] at hc
      | cons b t =>
        simp [Helios.getBuffer, hbuf] at hc
        rw [← h.2, ← hc]
        exact ⟨rfl, rfl⟩
  · intro s r s' h
    cases hc : Helios.getBuffer s with
    | none => simp [Helios.get_aligned_frames, Helios.get_frames, hc] at h
    | some p =>
      simp [Helios.get_aligned_frames, Helios.get_frames, hc] at h
      cases hbuf : s.buffers with
      | nil => simp [Helios.getBuffer, hbuf] at hc
      | cons b t =>
        simp [Helios.getBuffer, hbuf] at hc
        rw [← h.2, ← hc]
        exact ⟨rfl, rfl⟩

/-- C9 witness: intrinsics and serial preservation evaluated on the
concrete sample states for one retrieval of each kind and one option
write. -/
theorem C9_intr_serial_immutable_witness :
    ({ rsSample with frames := [] } : RS.State).intr = rsSample.intr ∧
    ({ rsSample with frames := [] } : RS.State).serial_number = rsSample.serial_number ∧
    (RS.setOption rsSample 3 42 true).1.intr = rsSample.intr ∧
    ({ heliosSample with buffers := [] } : Helios.State).intr = heliosSample.intr ∧
    ({ heliosSample with buffers := [] } : Helios.State).serial_number =
      heliosSample.serial_number := by
  have h := C9_intr_serial_immutable
  have hrgb := h.1 rsSample ⟨1280, 720, 3, 8, [1, 2, 3]⟩
    { rsSample with frames := [] } rfl
  have hopt := (h.2.2.2.2.1 rsSample 3 42 true).1
  have hhel := h.2.2.2.2.2.2.1 heliosSample
    (Helios.intensityImage ⟨2, 1, [⟨0, 0, 1000, 3⟩, ⟨0, 0, 2000, 7⟩]⟩)
    { heliosSample with buffers := [] } rfl
  exact ⟨hrgb.1, hrgb.2, hopt, hhel.1, hhel.2⟩

end CameraUtils
